import Mathlib

/-!
Shallow embedding of the typed-allocation façade in `myalloc.h`
(ConminCG, `src/C Code/withCubicReg/myalloc.h`).

The header defines four C macros, each in two compile modes selected by
`MALLOCDEBUG` (tracing vs silent):

* `MALLOC(name,len,type)`  — `name = (type*)malloc(len*sizeof(type))`;
  if the result is `NULL` and `len > 0`, print a failure message and
  `exit(1)`.
* `CALLOC(name,len,type)`  — `name = (type*)calloc(len, sizeof(type))`;
  same failure check (`exit(1)`), then `for (i=0;i<len;i++) name[i]=0;`.
* `REALLOC(name,len,type)` — `name = (type*)realloc(name, len*sizeof(type))`;
  same failure check, but the tracing-mode copy calls `exit(11)` while the
  silent-mode copy calls `exit(1)`.
* `FREE(name)` — `if (name != NULL) free(name); name = NULL;`.

In tracing mode, `MALLOC`/`CALLOC`/`REALLOC` first print one trace line when
`(len)*sizeof(type) >= MY_MALLOC_THRESH` (the header fixes the threshold at
1); `FREE` prints one trace line unconditionally.  All output goes through
`printf`.

Embedding choices:

* A handle is `Option (List α)`: `none` is the C `NULL` pointer, `some data`
  a region holding the listed element values.
* The platform allocator is a nondeterministic oracle: each operation takes
  the response of the allocator (`Option (List α)`) as an argument; hypotheses in
  the theorems express the platform contract (e.g. that a successful
  `realloc` preserves the prefix of the old region).
* C integer arithmetic is explicit: `len` is a mathematical `Int` (the C
  `int` argument), `sizeof(type)` a `Nat`, and the conversion to the
  platform size type of width `w` is reduction modulo `2^w`.
* Each operation returns an `OpResult` recording the new handle, the trace
  lines printed, the failure message printed (if any), the process outcome
  (normal return or `exit(s)`), the byte count handed to `malloc`/`realloc`,
  the argument pair handed to `calloc`, and whether `free` was called.
  Within one operation the printed text appears in order: trace lines first
  (they are printed before the allocator is invoked), then the failure
  message.
-/

namespace Myalloc

/-- How an operation ends: a normal return, or process termination via
`exit(status)`. -/
inductive Outcome where
  | normal : Outcome
  | exited : Nat → Outcome
deriving DecidableEq, Repr

/-- Result of running one façade operation. -/
structure OpResult (α : Type) where
  /-- The value stored in the destination handle afterwards
  (`none` = `NULL`). -/
  handle : Option (List α)
  /-- Trace lines printed (tracing mode only), in order, before the
  allocator is invoked. -/
  trace : List String
  /-- The allocator-failure message printed on the failure path, if any.
  It is printed after the trace lines. -/
  errMsg : Option String
  /-- Whether the operation returns normally or exits the process. -/
  outcome : Outcome
  /-- The byte count passed to `malloc`/`realloc` (`none` for `CALLOC` and
  `FREE`, which do not pass a single byte count). -/
  bytesRequested : Option Nat
  /-- The `(count, size)` argument pair passed to `calloc`
  (`none` for the other operations). -/
  callocArgs : Option (Nat × Nat)
  /-- Whether `free` was invoked on a region. -/
  didFree : Bool
deriving Repr

/-- C conversion of the (possibly negative) `int` value `n` to the
unsigned platform size type of width `w`: reduction modulo `2^w`. -/
def toSizeT (w : Nat) (n : Int) : Nat :=
  (n % ((2 : Int) ^ w)).toNat

/-- The value of the C expression `(len)*sizeof(type)`: `len` is converted
to `size_t` and the product is taken modulo `2^w` (size_t arithmetic wraps).
No overflow check is performed anywhere in the header. -/
def cBytes (w : Nat) (n : Int) (szT : Nat) : Nat :=
  (toSizeT w n * szT) % 2 ^ w

/-- Pad a string on the left with spaces to width `k` (C `%12s`). -/
def padL (k : Nat) (s : String) : String :=
  String.mk (List.replicate (k - s.length) ' ') ++ s

/-- Pad a string on the right with spaces to width `k` (C `%-6d` applied to
the rendered number). -/
def padR (k : Nat) (s : String) : String :=
  s ++ String.mk (List.replicate (k - s.length) ' ')

/-- Trace line of `MALLOC`:
`printf("MALLOC(  %12s, %12s=%-6d," #type " )\n", #name, #len, len)`. -/
def mallocTraceLine (nm ls : String) (len : Int) (ty : String) : String :=
  "MALLOC(  " ++ padL 12 nm ++ ", " ++ padL 12 ls ++ "=" ++
    padR 6 (toString len) ++ "," ++ ty ++ " )\n"

/-- Trace line of `CALLOC`. -/
def callocTraceLine (nm ls : String) (len : Int) (ty : String) : String :=
  "CALLOC(  " ++ padL 12 nm ++ ", " ++ padL 12 ls ++ "=" ++
    padR 6 (toString len) ++ "," ++ ty ++ " )\n"

/-- Trace line of `REALLOC` (one space after the parenthesis). -/
def reallocTraceLine (nm ls : String) (len : Int) (ty : String) : String :=
  "REALLOC( " ++ padL 12 nm ++ ", " ++ padL 12 ls ++ "=" ++
    padR 6 (toString len) ++ "," ++ ty ++ " )\n"

/-- Trace line of `FREE`: `printf("FREE(    %12s )\n", #name)`. -/
def freeTraceLine (nm : String) : String :=
  "FREE(    " ++ padL 12 nm ++ " )\n"

/-- Failure message of `MALLOC`:
`printf("MALLOC(" #name "," #len "=%d," #type ")" ": cannot allocate space", len)`.
Note: no trailing newline in the format string. -/
def mallocFailLine (nm ls : String) (len : Int) (ty : String) : String :=
  "MALLOC(" ++ nm ++ "," ++ ls ++ "=" ++ toString len ++ "," ++ ty ++
    "): cannot allocate space"

/-- Failure message of `CALLOC` (no trailing newline). -/
def callocFailLine (nm ls : String) (len : Int) (ty : String) : String :=
  "CALLOC(" ++ nm ++ "," ++ ls ++ "=" ++ toString len ++ "," ++ ty ++
    "): cannot allocate space"

/-- Failure message of `REALLOC` (no trailing newline). -/
def reallocFailLine (nm ls : String) (len : Int) (ty : String) : String :=
  "REALLOC(" ++ nm ++ "," ++ ls ++ "=" ++ toString len ++ "," ++ ty ++
    "): cannot reallocate space"

/-- The C loop `for (i=0; i<len; i++) name[i] = 0;`: overwrite the first
`k` elements of the region with the zero value (writes past the end of the
region cannot occur when the allocator honoured the request; the model leaves
shorter regions unchanged beyond their length, and `k = 0` for a negative
`len`). -/
def zeroFill {α : Type} [Zero α] : Nat → List α → List α
  | _, [] => []
  | 0, xs => xs
  | k + 1, _ :: xs => (0 : α) :: zeroFill k xs

/-- The C failure test `name == NULL && len > 0` shared by the three
allocation macros. -/
def allocFailed {α : Type} (allocRes : Option (List α)) (len : Int) : Bool :=
  allocRes.isNone && decide (0 < len)

/-- The `MALLOC(name,len,type)` macro.  `debug` selects the tracing copy,
`thresh` is `MY_MALLOC_THRESH`, `w` the width of `size_t`, `nm`/`ls`/`ty`
the stringized `#name`/`#len`/`#type` tokens, `len` the count, `szT` the
value of `sizeof(type)`, and `allocRes` the response of the platform allocator
to the request.  The assignment `name = malloc(...)` always happens
(`handle := allocRes`); the failure branch fires only when the result is
`NULL` and `len > 0`, printing the message and calling `exit(1)`. -/
def MALLOC {α : Type} (debug : Bool) (thresh w : Nat) (nm ls ty : String)
    (len : Int) (szT : Nat) (allocRes : Option (List α)) : OpResult α where
  handle := allocRes
  trace := if debug && decide (thresh ≤ cBytes w len szT)
    then [mallocTraceLine nm ls len ty] else []
  errMsg := if allocFailed allocRes len
    then some (mallocFailLine nm ls len ty) else none
  outcome := if allocFailed allocRes len then .exited 1 else .normal
  bytesRequested := some (cBytes w len szT)
  callocArgs := none
  didFree := false

/-- The `CALLOC(name,len,type)` macro: call `calloc(len, sizeof(type))`
(the count and the element size are passed separately, no product is
formed), on `NULL` with `len > 0` print and `exit(1)`, otherwise run the
explicit zeroing loop `for (i=0;i<len;i++) name[i]=0;` over the region
(zero iterations when `len ≤ 0` or the handle is `NULL`). -/
def CALLOC {α : Type} [Zero α] (debug : Bool) (thresh w : Nat)
    (nm ls ty : String) (len : Int) (szT : Nat)
    (allocRes : Option (List α)) : OpResult α where
  handle := allocRes.map (zeroFill len.toNat)
  trace := if debug && decide (thresh ≤ cBytes w len szT)
    then [callocTraceLine nm ls len ty] else []
  errMsg := if allocFailed allocRes len
    then some (callocFailLine nm ls len ty) else none
  outcome := if allocFailed allocRes len then .exited 1 else .normal
  bytesRequested := none
  callocArgs := some (toSizeT w len, szT)
  didFree := false

/-- The `REALLOC(name,len,type)` macro: `name = realloc(name, len*sizeof(type))`
(the assignment happens inside the `if` condition, before the failure
`printf`/`exit`), on `NULL` with `len > 0` print and exit — with status 11
in the tracing copy and status 1 in the silent copy.  `old` is the region
the handle held before the call (consumed by `realloc`); `allocRes` is the
response of the reallocator, related to `old` by the platform `realloc`
contract in the theorems below. -/
def REALLOC {α : Type} (debug : Bool) (thresh w : Nat) (nm ls ty : String)
    (len : Int) (szT : Nat) (old : Option (List α))
    (allocRes : Option (List α)) : OpResult α where
  handle := allocRes
  trace := if debug && decide (thresh ≤ cBytes w len szT)
    then [reallocTraceLine nm ls len ty] else []
  errMsg := if allocFailed allocRes len
    then some (reallocFailLine nm ls len ty) else none
  outcome := if allocFailed allocRes len
    then .exited (if debug then 11 else 1) else .normal
  bytesRequested := some (cBytes w len szT)
  callocArgs := none
  didFree := false

/-- The `FREE(name)` macro: in tracing mode print one trace line
unconditionally; call `free` only when the handle is non-`NULL`; set the
handle to `NULL`. -/
def FREE {α : Type} (debug : Bool) (nm : String)
    (h : Option (List α)) : OpResult α :=
  ⟨none, if debug then [freeTraceLine nm] else [], none, .normal,
    none, none, h.isSome⟩

/-- The final character of the printed text of a string, if any. -/
def lastChar (s : String) : Option Char :=
  s.data.getLast?

/-- The string `line` mentions the symbolic name `nm`, the decimal
rendering of the count `n`, and the type name `ty`, in that order. -/
def containsFields (line nm : String) (n : Int) (ty : String) : Prop :=
  ∃ a b c d : String, line = a ++ nm ++ b ++ toString n ++ c ++ ty ++ d

/-! ### Helper lemmas -/

/-- The zeroing loop run over the whole region turns it into a region of
zeros. -/
theorem zeroFill_eq_replicate {α : Type} [Zero α] (data : List α) :
    zeroFill data.length data = List.replicate data.length (0 : α) := by
  induction data with
  | nil => rfl
  | cons x xs ih => simpa [zeroFill, List.replicate] using ih

/-- Appending on the left does not change the final character. -/
theorem lastChar_append (a b : String) (c : Char)
    (h : lastChar b = some c) : lastChar (a ++ b) = some c := by
  unfold lastChar at h ⊢
  rw [String.data_append, List.getLast?_append, h]
  rfl

theorem lastChar_mallocTraceLine (nm ls : String) (n : Int) (ty : String) :
    lastChar (mallocTraceLine nm ls n ty) = some (Char.ofNat 10) := by
  unfold mallocTraceLine
  repeat apply lastChar_append
  decide

theorem lastChar_callocTraceLine (nm ls : String) (n : Int) (ty : String) :
    lastChar (callocTraceLine nm ls n ty) = some (Char.ofNat 10) := by
  unfold callocTraceLine
  repeat apply lastChar_append
  decide

theorem lastChar_reallocTraceLine (nm ls : String) (n : Int) (ty : String) :
    lastChar (reallocTraceLine nm ls n ty) = some (Char.ofNat 10) := by
  unfold reallocTraceLine
  repeat apply lastChar_append
  decide

theorem lastChar_freeTraceLine (nm : String) :
    lastChar (freeTraceLine nm) = some (Char.ofNat 10) := by
  unfold freeTraceLine
  repeat apply lastChar_append
  decide

theorem lastChar_mallocFailLine (nm ls : String) (n : Int) (ty : String) :
    lastChar (mallocFailLine nm ls n ty) = some (Char.ofNat 101) := by
  unfold mallocFailLine
  repeat apply lastChar_append
  decide

theorem lastChar_callocFailLine (nm ls : String) (n : Int) (ty : String) :
    lastChar (callocFailLine nm ls n ty) = some (Char.ofNat 101) := by
  unfold callocFailLine
  repeat apply lastChar_append
  decide

theorem lastChar_reallocFailLine (nm ls : String) (n : Int) (ty : String) :
    lastChar (reallocFailLine nm ls n ty) = some (Char.ofNat 101) := by
  unfold reallocFailLine
  repeat apply lastChar_append
  decide

/-- The C expression `(len)*sizeof(type)` computes the mathematical product
`len * sizeof(type)` reduced modulo `2^w` (the representative in
`[0, 2^w)`), for every `len`, including negative ones. -/
theorem cBytes_eq_wrap (w : Nat) (n : Int) (szT : Nat) :
    cBytes w n szT = ((n * szT) % ((2 : Int) ^ w)).toNat := by
  unfold cBytes toSizeT
  have h2 : ((2 : Int) ^ w) ≠ 0 := by positivity
  have hmod : (0 : Int) ≤ n % 2 ^ w := Int.emod_nonneg n h2
  have hcast : ((((n % 2 ^ w).toNat * szT) % 2 ^ w : Nat) : Int)
      = ((n % 2 ^ w) * szT) % 2 ^ w := by
    push_cast [Int.toNat_of_nonneg hmod]
    ring_nf
  have hkey : ((n % 2 ^ w) * szT) % (2 : Int) ^ w
      = (n * szT) % (2 : Int) ^ w := by
    conv_rhs => rw [Int.mul_emod]
    conv_lhs => rw [Int.mul_emod, Int.emod_emod_of_dvd n dvd_rfl]
  omega

/-- When the count is nonnegative and the true byte product fits in the
size type, the C byte expression computes the true product. -/
theorem cBytes_fit (w : Nat) (n : Int) (szT : Nat) (hn : 0 ≤ n)
    (hfit : n * szT < (2 : Int) ^ w) :
    cBytes w n szT = (n * (szT : Int)).toNat := by
  rw [cBytes_eq_wrap]
  have hnn : (0 : Int) ≤ n * szT :=
    mul_nonneg hn (Int.natCast_nonneg szT)
  rw [Int.emod_eq_of_lt hnn hfit]

/-- An element of `if b then [l] else []` is `l`. -/
theorem eq_of_mem_ite_singleton {α : Type} {b : Bool} {s l : α}
    (hs : s ∈ (if b then [l] else [])) : s = l := by
  cases b
  · simp at hs
  · simpa using hs

/-- If `if b then some l else none` is `some s`, then `s = l`. -/
theorem eq_of_ite_some {α : Type} {b : Bool} {s l : α}
    (h : (if b then some l else none) = some s) : s = l := by
  cases b <;> simp_all

/-! ### Claim theorems -/

/-- C2: for every element type and every count `n ≥ 0`, after a successful
`CALLOC` the handle owns `n` elements and every one of them equals the zero
value of the type — even when the underlying allocator returned a region
`data` that is not zeroed, because the loop in the macro itself,
`for (i=0;i<len;i++) name[i]=0;` writes the zeros.  The hypothesis `hlen`
is the platform contract that the returned region holds `n` elements. -/
theorem C2_zero_alloc {α : Type} [Zero α] (debug : Bool) (thresh w : Nat)
    (nm ls ty : String) (n : Int) (szT : Nat) (data : List α)
    (hn : 0 ≤ n) (hlen : data.length = n.toNat) :
    ∃ zs : List α,
      (CALLOC debug thresh w nm ls ty n szT (some data)).handle = some zs ∧
      (zs.length : Int) = n ∧ ∀ x ∈ zs, x = 0 := by
  have h1 : zeroFill n.toNat data = List.replicate n.toNat (0 : α) := by
    rw [← hlen]
    exact zeroFill_eq_replicate data
  refine ⟨List.replicate n.toNat 0, ?_, ?_, ?_⟩
  · simp [CALLOC, h1]
  · simp [Int.toNat_of_nonneg hn]
  · intro x hx
    exact List.eq_of_mem_replicate hx

/-- C2 witness: `CALLOC` at count 4 on an allocator that returned the
unzeroed region `[7, 8, 9, 1]` still yields four zeros. -/
theorem C2_zero_alloc_witness :
    (0 : Int) ≤ 4 ∧ ([(7 : Int), 8, 9, 1].length = (4 : Int).toNat) ∧
    ∃ zs : List Int,
      (CALLOC false 1 64 "x" "n" "double" 4 8
          (some [(7 : Int), 8, 9, 1])).handle = some zs ∧
      (zs.length : Int) = 4 ∧ ∀ x ∈ zs, x = 0 :=
  ⟨by decide, by decide,
    C2_zero_alloc false 1 64 "x" "n" "double" 4 8 [7, 8, 9, 1]
      (by decide) (by decide)⟩

/-- C3: after a successful `REALLOC` from a region `old` to count `n`, the
handle owns exactly the region the reallocator produced, of `n` elements,
whose first `min(n, previous_n)` elements compare equal to the prior
contents.  The macro passes the handle straight to `realloc` and stores the
result; the hypotheses `hlen` and `hpre` are the platform `realloc`
contract (size of the new region, preservation of the common prefix). -/
theorem C3_resize_preserves {α : Type} (debug : Bool) (thresh w : Nat)
    (nm ls ty : String) (n : Int) (szT : Nat) (old data : List α)
    (hn : 0 ≤ n) (hlen : data.length = n.toNat)
    (hpre : data.take (min n.toNat old.length)
      = old.take (min n.toNat old.length)) :
    (REALLOC debug thresh w nm ls ty n szT (some old)
        (some data)).handle = some data ∧
    (REALLOC debug thresh w nm ls ty n szT (some old)
        (some data)).outcome = Outcome.normal ∧
    (data.length : Int) = n ∧
    data.take (min n.toNat old.length)
      = old.take (min n.toNat old.length) := by
  refine ⟨rfl, ?_, ?_, hpre⟩
  · simp [REALLOC, allocFailed]
  · rw [hlen]
    exact Int.toNat_of_nonneg hn

/-- C3 witness: a region `[7, 8, 9]` resized to 5 elements, with the
reallocator returning `[7, 8, 9, 0, 1]`, keeps its first three elements. -/
theorem C3_resize_preserves_witness :
    (0 : Int) ≤ 5 ∧
    (REALLOC false 1 64 "y" "n" "int" 5 4 (some [(7 : Int), 8, 9])
        (some [7, 8, 9, 0, 1])).handle = some [7, 8, 9, 0, 1] ∧
    (REALLOC false 1 64 "y" "n" "int" 5 4 (some [(7 : Int), 8, 9])
        (some [7, 8, 9, 0, 1])).outcome = Outcome.normal ∧
    (([(7 : Int), 8, 9, 0, 1].length : Int) = 5) ∧
    [(7 : Int), 8, 9, 0, 1].take (min (5 : Int).toNat [(7 : Int), 8, 9].length)
      = [(7 : Int), 8, 9].take (min (5 : Int).toNat [(7 : Int), 8, 9].length) :=
  ⟨by decide,
    C3_resize_preserves false 1 64 "y" "n" "int" 5 4 [7, 8, 9]
      [7, 8, 9, 0, 1] (by decide) (by decide) (by decide)⟩

/-- C5: `FREE` always leaves the handle empty, and a second `FREE` on the
now-empty handle leaves it empty, calls `free` on nothing, prints no
failure diagnostic, and returns normally — `FREE` is idempotent.  This
holds in both build modes (the tracing copy only adds a trace line). -/
theorem C5_release_idempotent {α : Type} (debug : Bool) (nm nm2 : String)
    (h : Option (List α)) :
    (FREE debug nm h).handle = none ∧
    (FREE debug nm2 (FREE debug nm h).handle).handle = none ∧
    (FREE debug nm2 (FREE debug nm h).handle).didFree = false ∧
    (FREE debug nm2 (FREE debug nm h).handle).errMsg = none ∧
    (FREE debug nm2 (FREE debug nm h).handle).outcome = Outcome.normal :=
  ⟨rfl, rfl, rfl, rfl, rfl⟩

/-- C10: on every allocator-failure path with `n > 0`, the aborting state
already has the handle overwritten with the `NULL` result (the assignment
sits inside the `if` condition, before the `printf`/`exit`); in particular
a failed `REALLOC` has lost the sole pointer to the prior region `old` at
the moment of abort. -/
theorem C10_handle_overwritten_on_abort {α : Type} [Zero α]
    (debug : Bool) (thresh w : Nat) (nm ls ty : String) (n : Int)
    (szT : Nat) (old : List α) (hn : 0 < n) :
    ((REALLOC debug thresh w nm ls ty n szT (some old) none).handle = none ∧
      (REALLOC debug thresh w nm ls ty n szT (some old) none).errMsg
        = some (reallocFailLine nm ls n ty) ∧
      (REALLOC debug thresh w nm ls ty n szT (some old) none).outcome
        = Outcome.exited (if debug then 11 else 1)) ∧
    ((MALLOC (α := α) debug thresh w nm ls ty n szT none).handle = none ∧
      (MALLOC (α := α) debug thresh w nm ls ty n szT none).errMsg
        = some (mallocFailLine nm ls n ty) ∧
      (MALLOC (α := α) debug thresh w nm ls ty n szT none).outcome
        = Outcome.exited 1) ∧
    ((CALLOC (α := α) debug thresh w nm ls ty n szT none).handle = none ∧
      (CALLOC (α := α) debug thresh w nm ls ty n szT none).errMsg
        = some (callocFailLine nm ls n ty) ∧
      (CALLOC (α := α) debug thresh w nm ls ty n szT none).outcome
        = Outcome.exited 1) := by
  simp [MALLOC, CALLOC, REALLOC, allocFailed, hn]

/-- C10 witness: a failed `REALLOC` at count 2 from the region `[1, 2]`
aborts with the handle already `NULL`. -/
theorem C10_handle_overwritten_on_abort_witness :
    (0 : Int) < 2 ∧
    (REALLOC true 1 64 "p" "m" "int" 2 4 (some [(1 : Int), 2]) none).handle
      = none ∧
    (REALLOC true 1 64 "p" "m" "int" 2 4 (some [(1 : Int), 2]) none).outcome
      = Outcome.exited 11 :=
  ⟨by decide,
    (C10_handle_overwritten_on_abort true 1 64 "p" "m" "int" 2 4
      [1, 2] (by decide)).1.1,
    (C10_handle_overwritten_on_abort true 1 64 "p" "m" "int" 2 4
      [1, 2] (by decide)).1.2.2⟩

/-- C1 counterexample: `REALLOC` in the tracing build mode
(`MALLOCDEBUG`), failing at count 1, terminates with exit status 11, not
with exit status 1 as the claim states for all three operations in both
modes. -/
theorem C1_counterexample :
    (REALLOC (α := Int) true 1 64 "p" "m" "double" 1 8 (some [5])
        none).outcome = Outcome.exited 11 ∧
      Outcome.exited 11 ≠ Outcome.exited 1 :=
  ⟨rfl, by decide⟩

/-- C1 (amended): on allocator failure with `n > 0`, each of `MALLOC`,
`CALLOC`, `REALLOC` — in both build modes — prints a failure message
containing the symbolic name, the count `n`, and the element type name,
and terminates the process; the exit status is 1 except for `REALLOC` in
the tracing build mode, which exits with status 11. -/
theorem C1_failure_message_and_exit {α : Type} [Zero α] (debug : Bool)
    (thresh w : Nat) (nm ls ty : String) (n : Int) (szT : Nat)
    (old : List α) (hn : 0 < n) :
    ((MALLOC (α := α) debug thresh w nm ls ty n szT none).errMsg
        = some (mallocFailLine nm ls n ty) ∧
      containsFields (mallocFailLine nm ls n ty) nm n ty ∧
      (MALLOC (α := α) debug thresh w nm ls ty n szT none).outcome
        = Outcome.exited 1) ∧
    ((CALLOC (α := α) debug thresh w nm ls ty n szT none).errMsg
        = some (callocFailLine nm ls n ty) ∧
      containsFields (callocFailLine nm ls n ty) nm n ty ∧
      (CALLOC (α := α) debug thresh w nm ls ty n szT none).outcome
        = Outcome.exited 1) ∧
    ((REALLOC debug thresh w nm ls ty n szT (some old) none).errMsg
        = some (reallocFailLine nm ls n ty) ∧
      containsFields (reallocFailLine nm ls n ty) nm n ty ∧
      (REALLOC debug thresh w nm ls ty n szT (some old) none).outcome
        = Outcome.exited (if debug then 11 else 1)) := by
  refine ⟨⟨?_, ?_, ?_⟩, ⟨?_, ?_, ?_⟩, ⟨?_, ?_, ?_⟩⟩
  · simp [MALLOC, allocFailed, hn]
  · exact ⟨"MALLOC(", "," ++ ls ++ "=", ",", "): cannot allocate space",
      by simp [mallocFailLine, String.append_assoc]⟩
  · simp [MALLOC, allocFailed, hn]
  · simp [CALLOC, allocFailed, hn]
  · exact ⟨"CALLOC(", "," ++ ls ++ "=", ",", "): cannot allocate space",
      by simp [callocFailLine, String.append_assoc]⟩
  · simp [CALLOC, allocFailed, hn]
  · simp [REALLOC, allocFailed, hn]
  · exact ⟨"REALLOC(", "," ++ ls ++ "=", ",", "): cannot reallocate space",
      by simp [reallocFailLine, String.append_assoc]⟩
  · simp [REALLOC, allocFailed, hn]

/-- C1 witness: a failed `MALLOC` at count 2 in silent mode prints the
failure message and exits with status 1. -/
theorem C1_failure_message_and_exit_witness :
    (0 : Int) < 2 ∧
    (MALLOC (α := Int) false 1 64 "x" "n" "int" 2 4 none).errMsg
      = some (mallocFailLine "x" "n" 2 "int") ∧
    (MALLOC (α := Int) false 1 64 "x" "n" "int" 2 4 none).outcome
      = Outcome.exited 1 :=
  ⟨by decide,
    (C1_failure_message_and_exit false 1 64 "x" "n" "int" 2 4
      ([] : List Int) (by decide)).1.1,
    (C1_failure_message_and_exit false 1 64 "x" "n" "int" 2 4
      ([] : List Int) (by decide)).1.2.2⟩

/-- C4: every operation invoked with count `n = 0` skips the failure
branch entirely — the guard requires `len > 0` — so no failure diagnostic
is printed and the process does not abort, even when the platform
allocator returns `NULL`; the resulting handle is either `NULL` or a
zero-length region, whichever the allocator produced (`hres` is the
platform contract that a successful zero-byte request yields an empty
region). -/
theorem C4_zero_count_no_abort {α : Type} [Zero α] (debug : Bool)
    (thresh w : Nat) (nm ls ty : String) (szT : Nat)
    (res old : Option (List α)) (hres : ∀ d, res = some d → d = []) :
    ((MALLOC debug thresh w nm ls ty 0 szT res).errMsg = none ∧
      (MALLOC debug thresh w nm ls ty 0 szT res).outcome = Outcome.normal ∧
      ((MALLOC debug thresh w nm ls ty 0 szT res).handle = none ∨
        (MALLOC debug thresh w nm ls ty 0 szT res).handle = some [])) ∧
    ((CALLOC debug thresh w nm ls ty 0 szT res).errMsg = none ∧
      (CALLOC debug thresh w nm ls ty 0 szT res).outcome = Outcome.normal ∧
      ((CALLOC debug thresh w nm ls ty 0 szT res).handle = none ∨
        (CALLOC debug thresh w nm ls ty 0 szT res).handle = some [])) ∧
    ((REALLOC debug thresh w nm ls ty 0 szT old res).errMsg = none ∧
      (REALLOC debug thresh w nm ls ty 0 szT old res).outcome
        = Outcome.normal ∧
      ((REALLOC debug thresh w nm ls ty 0 szT old res).handle = none ∨
        (REALLOC debug thresh w nm ls ty 0 szT old res).handle
          = some [])) := by
  rcases res with _ | d
  · simp [MALLOC, CALLOC, REALLOC, allocFailed]
  · have hd : d = [] := hres d rfl
    subst hd
    simp [MALLOC, CALLOC, REALLOC, allocFailed, zeroFill]

/-- C4 witness: `MALLOC` at count 0 with a `NULL` allocator result
returns normally with an empty handle and no diagnostic. -/
theorem C4_zero_count_no_abort_witness :
    (MALLOC (α := Int) false 1 64 "z" "n" "int" 0 4 none).errMsg = none ∧
    (MALLOC (α := Int) false 1 64 "z" "n" "int" 0 4 none).outcome
      = Outcome.normal ∧
    ((MALLOC (α := Int) false 1 64 "z" "n" "int" 0 4 none).handle = none ∨
      (MALLOC (α := Int) false 1 64 "z" "n" "int" 0 4 none).handle
        = some []) :=
  (C4_zero_count_no_abort false 1 64 "z" "n" "int" 4 none none
    (fun d h => by cases h)).1

/-- C8 counterexample: `MALLOC` invoked with the negative count `-1`,
with the platform allocator returning `NULL`, prints no diagnostic and
returns normally with the handle silently set to empty — the opposite of
the claimed fatal-error treatment. -/
theorem C8_counterexample :
    (MALLOC (α := Int) false 1 64 "x" "n" "int" (-1) 4 none).outcome
      = Outcome.normal ∧
    (MALLOC (α := Int) false 1 64 "x" "n" "int" (-1) 4 none).errMsg
      = none ∧
    (MALLOC (α := Int) false 1 64 "x" "n" "int" (-1) 4 none).handle
      = none :=
  ⟨rfl, rfl, rfl⟩

/-- C8 (amended): for every negative count `n`, the failure guard
`name == NULL && len > 0` is false, so when the platform allocator returns
`NULL` each of the three operations emits no diagnostic, does not abort,
and returns with the handle silently set to empty — the façade performs no
fatal-error treatment of negative counts (in either build mode). -/
theorem C8_negative_count_silent {α : Type} [Zero α] (debug : Bool)
    (thresh w : Nat) (nm ls ty : String) (n : Int) (szT : Nat)
    (old : Option (List α)) (hn : n < 0) :
    ((MALLOC (α := α) debug thresh w nm ls ty n szT none).errMsg = none ∧
      (MALLOC (α := α) debug thresh w nm ls ty n szT none).outcome
        = Outcome.normal ∧
      (MALLOC (α := α) debug thresh w nm ls ty n szT none).handle = none) ∧
    ((CALLOC (α := α) debug thresh w nm ls ty n szT none).errMsg = none ∧
      (CALLOC (α := α) debug thresh w nm ls ty n szT none).outcome
        = Outcome.normal ∧
      (CALLOC (α := α) debug thresh w nm ls ty n szT none).handle = none) ∧
    ((REALLOC debug thresh w nm ls ty n szT old none).errMsg = none ∧
      (REALLOC debug thresh w nm ls ty n szT old none).outcome
        = Outcome.normal ∧
      (REALLOC debug thresh w nm ls ty n szT old none).handle = none) := by
  have hn2 : ¬ (0 < n) := by omega
  simp [MALLOC, CALLOC, REALLOC, allocFailed, hn2]

/-- C8 witness: `REALLOC` at count `-5` with a `NULL` result returns
normally, without diagnostic, the handle empty. -/
theorem C8_negative_count_silent_witness :
    ((-5 : Int) < 0) ∧
    (REALLOC (α := Int) true 1 64 "p" "m" "int" (-5) 4 (some [1]) none).errMsg
      = none ∧
    (REALLOC (α := Int) true 1 64 "p" "m" "int" (-5) 4 (some [1])
        none).outcome = Outcome.normal :=
  ⟨by decide,
    (C8_negative_count_silent true 1 64 "p" "m" "int" (-5) 4
      (some [1]) (by decide)).2.2.1,
    (C8_negative_count_silent true 1 64 "p" "m" "int" (-5) 4
      (some [1]) (by decide)).2.2.2.1⟩

/-- C6: in tracing mode, each of `MALLOC`, `CALLOC`, `REALLOC` prints
exactly one trace line when `n * sizeof(T) ≥ THRESHOLD` and none
otherwise, and the trace output does not depend on the response of the
response (it is printed before the allocator is invoked); `FREE` prints
exactly one trace line regardless of the threshold.  The hypotheses state
that the count is nonnegative and the byte product fits in the size type,
which holds for every C `int` count and genuine element size. -/
theorem C6_trace_policy {α : Type} [Zero α] (thresh w : Nat)
    (nm ls ty : String) (n : Int) (szT : Nat)
    (res res2 old h : Option (List α))
    (hn : 0 ≤ n) (hfit : n * szT < (2 : Int) ^ w) :
    (((thresh : Int) ≤ n * szT →
        (MALLOC (α := α) true thresh w nm ls ty n szT res).trace
          = [mallocTraceLine nm ls n ty]) ∧
      (n * szT < (thresh : Int) →
        (MALLOC (α := α) true thresh w nm ls ty n szT res).trace = []) ∧
      (MALLOC (α := α) true thresh w nm ls ty n szT res).trace
        = (MALLOC (α := α) true thresh w nm ls ty n szT res2).trace) ∧
    (((thresh : Int) ≤ n * szT →
        (CALLOC (α := α) true thresh w nm ls ty n szT res).trace
          = [callocTraceLine nm ls n ty]) ∧
      (n * szT < (thresh : Int) →
        (CALLOC (α := α) true thresh w nm ls ty n szT res).trace = []) ∧
      (CALLOC (α := α) true thresh w nm ls ty n szT res).trace
        = (CALLOC (α := α) true thresh w nm ls ty n szT res2).trace) ∧
    (((thresh : Int) ≤ n * szT →
        (REALLOC true thresh w nm ls ty n szT old res).trace
          = [reallocTraceLine nm ls n ty]) ∧
      (n * szT < (thresh : Int) →
        (REALLOC true thresh w nm ls ty n szT old res).trace = []) ∧
      (REALLOC true thresh w nm ls ty n szT old res).trace
        = (REALLOC true thresh w nm ls ty n szT old res2).trace) ∧
    (FREE (α := α) true nm h).trace = [freeTraceLine nm] := by
  have hcb : cBytes w n szT = (n * (szT : Int)).toNat := cBytes_fit w n szT hn hfit
  have hnn : (0 : Int) ≤ n * szT := mul_nonneg hn (Int.natCast_nonneg szT)
  have hle : ∀ hle2 : (thresh : Int) ≤ n * szT, thresh ≤ cBytes w n szT := by
    intro hle2
    rw [hcb]
    exact (Int.le_toNat hnn).mpr hle2
  have hlt : ∀ hlt2 : n * szT < (thresh : Int), ¬ thresh ≤ cBytes w n szT := by
    intro hlt2 hc
    rw [hcb] at hc
    have := (Int.le_toNat hnn).mp hc
    omega
  refine ⟨⟨?_, ?_, rfl⟩, ⟨?_, ?_, rfl⟩, ⟨?_, ?_, rfl⟩, rfl⟩
  · intro h2; simp [MALLOC, hle h2]
  · intro h2; simp [MALLOC, hlt h2]
  · intro h2; simp [CALLOC, hle h2]
  · intro h2; simp [CALLOC, hlt h2]
  · intro h2; simp [REALLOC, hle h2]
  · intro h2; simp [REALLOC, hlt h2]

/-- C6 witness: with threshold 1, `MALLOC` of 10 elements of size 4 in
tracing mode prints exactly one trace line, and `FREE` prints one. -/
theorem C6_trace_policy_witness :
    (0 : Int) ≤ 10 ∧ ((10 : Int) * (4 : Nat) < (2 : Int) ^ 64) ∧
    ((1 : Nat) : Int) ≤ (10 : Int) * (4 : Nat) ∧
    (MALLOC (α := Int) true 1 64 "a" "n" "int" 10 4 none).trace
      = [mallocTraceLine "a" "n" 10 "int"] ∧
    (FREE (α := Int) true "a" none).trace = [freeTraceLine "a"] :=
  ⟨by decide, by decide, by decide,
    (C6_trace_policy 1 64 "a" "n" "int" 10 4 none none none none
      (by decide) (by decide)).1.1 (by decide),
    (C6_trace_policy 1 64 "a" "n" "int" 10 4 none none none none
      (by decide) (by decide)).2.2.2⟩

/-- C7 counterexample: the allocator-failure message of `MALLOC` (silent
mode, count 1, `NULL` result) is printed without a terminating newline —
its last character is `'e'` of `"space"`, not a newline — refuting the
claim that every line the façade writes is newline-terminated. -/
theorem C7_counterexample :
    (MALLOC (α := Int) false 1 64 "x" "n" "double" 1 8 none).errMsg
      = some (mallocFailLine "x" "n" 1 "double") ∧
    lastChar (mallocFailLine "x" "n" 1 "double") ≠ some (Char.ofNat 10) :=
  ⟨rfl, by decide⟩

/-- C7 (amended): every trace line is a single line terminated by a
newline character, but the allocator-failure messages are not: their
format strings end in `"cannot (re)allocate space"` with no newline, so
their last character is `'e'`. -/
theorem C7_newline_termination {α : Type} [Zero α] (debug : Bool)
    (thresh w : Nat) (nm ls ty : String) (n : Int) (szT : Nat)
    (res old h : Option (List α)) :
    (∀ s ∈ (MALLOC (α := α) debug thresh w nm ls ty n szT res).trace,
        lastChar s = some (Char.ofNat 10)) ∧
    (∀ s ∈ (CALLOC (α := α) debug thresh w nm ls ty n szT res).trace,
        lastChar s = some (Char.ofNat 10)) ∧
    (∀ s ∈ (REALLOC debug thresh w nm ls ty n szT old res).trace,
        lastChar s = some (Char.ofNat 10)) ∧
    (∀ s ∈ (FREE (α := α) debug nm h).trace,
        lastChar s = some (Char.ofNat 10)) ∧
    (∀ s, (MALLOC (α := α) debug thresh w nm ls ty n szT res).errMsg
        = some s → lastChar s = some (Char.ofNat 101)) ∧
    (∀ s, (CALLOC (α := α) debug thresh w nm ls ty n szT res).errMsg
        = some s → lastChar s = some (Char.ofNat 101)) ∧
    (∀ s, (REALLOC debug thresh w nm ls ty n szT old res).errMsg
        = some s → lastChar s = some (Char.ofNat 101)) ∧
    Char.ofNat 101 ≠ Char.ofNat 10 := by
  refine ⟨?_, ?_, ?_, ?_, ?_, ?_, ?_, by decide⟩
  · intro s hs
    rw [eq_of_mem_ite_singleton hs]
    exact lastChar_mallocTraceLine nm ls n ty
  · intro s hs
    rw [eq_of_mem_ite_singleton hs]
    exact lastChar_callocTraceLine nm ls n ty
  · intro s hs
    rw [eq_of_mem_ite_singleton hs]
    exact lastChar_reallocTraceLine nm ls n ty
  · intro s hs
    cases debug
    · simp [FREE] at hs
    · rw [show s = freeTraceLine nm by simpa [FREE] using hs]
      exact lastChar_freeTraceLine nm
  · intro s hs
    rw [eq_of_ite_some hs]
    exact lastChar_mallocFailLine nm ls n ty
  · intro s hs
    rw [eq_of_ite_some hs]
    exact lastChar_callocFailLine nm ls n ty
  · intro s hs
    rw [eq_of_ite_some hs]
    exact lastChar_reallocFailLine nm ls n ty

/-- C7 witness: the trace line of a tracing-mode `MALLOC` of 10 elements
ends with a newline, while its failure message on a failed call ends with
`'e'`. -/
theorem C7_newline_termination_witness :
    lastChar (mallocTraceLine "a" "n" 10 "int") = some (Char.ofNat 10) ∧
    lastChar (mallocFailLine "a" "n" 10 "int") = some (Char.ofNat 101) :=
  ⟨(C7_newline_termination (α := Int) true 1 64 "a" "n" "int" 10 4
      none none none).1 (mallocTraceLine "a" "n" 10 "int") (by decide),
    (C7_newline_termination (α := Int) true 1 64 "a" "n" "int" 10 4
      none none none).2.2.2.2.1 (mallocFailLine "a" "n" 10 "int") (by decide)⟩

/-- C9: the byte count handed to `malloc`/`realloc` is exactly
`n * sizeof(T)` reduced modulo `2^w` (`w` the width of the platform size
type): the façade performs no overflow check, so an overflowing product
silently wraps, and a successful allocator response to the wrapped request
is accepted as a normal return.  (`calloc` is not concerned: it receives
the count and the element size as two separate arguments.) -/
theorem C9_size_request_wraps {α : Type} (debug : Bool) (thresh w : Nat)
    (nm ls ty : String) (n : Int) (szT : Nat) (res old : Option (List α)) :
    ((MALLOC (α := α) debug thresh w nm ls ty n szT res).bytesRequested
        = some ((n * szT % (2 : Int) ^ w).toNat)) ∧
    ((REALLOC debug thresh w nm ls ty n szT old res).bytesRequested
        = some ((n * szT % (2 : Int) ^ w).toNat)) ∧
    (∀ d, res = some d →
      (MALLOC (α := α) debug thresh w nm ls ty n szT res).outcome
          = Outcome.normal ∧
        (REALLOC debug thresh w nm ls ty n szT old res).outcome
          = Outcome.normal) := by
  refine ⟨?_, ?_, ?_⟩
  · simp [MALLOC, cBytes_eq_wrap]
  · simp [REALLOC, cBytes_eq_wrap]
  · rintro d rfl
    constructor <;> simp [MALLOC, REALLOC, allocFailed]

/-- C9 witness: with an 8-bit size type, a `MALLOC` of 64 elements of
size 4 requests `64 * 4 mod 2^8 = 0` bytes — the product wraps — and a
successful response is accepted normally. -/
theorem C9_size_request_wraps_witness :
    (MALLOC (α := Int) false 1 8 "x" "n" "int" 64 4
        (some [])).bytesRequested
      = some (((64 : Int) * (4 : Nat) % (2 : Int) ^ 8).toNat) ∧
    ((64 : Int) * (4 : Nat) % (2 : Int) ^ 8).toNat = 0 ∧
    (MALLOC (α := Int) false 1 8 "x" "n" "int" 64 4 (some [])).outcome
      = Outcome.normal :=
  ⟨(C9_size_request_wraps false 1 8 "x" "n" "int" 64 4 (some []) none).1,
    by decide,
    ((C9_size_request_wraps false 1 8 "x" "n" "int" 64 4 (some [])
      none).2.2 [] rfl).1⟩

end Myalloc
